import Mathlib

/- Shallow embedding of the computer-vision workshop notebooks for SageMaker.
   Each notebook cell that configures an SDK object is translated into a Lean
   record built from the same literal strings and numbers that appear in the
   cell.  S3 URIs are functions of the bucket name, which the notebooks obtain
   at run time from the SageMaker session; the pipeline notebook additionally
   threads the run-specific output root (which embeds a fresh uuid) as a
   string argument named o. -/

/-- Lowercase one ASCII character, modelling what Python str.lower does on the
ASCII strings appearing in the notebooks. -/
def lowerChar (c : Char) : Char :=
  if 'A' ≤ c ∧ c ≤ 'Z' then Char.ofNat (c.toNat + 32) else c

/-- Lowercase a string, modelling Python str.lower for ASCII strings. -/
def lowerStr (s : String) : String := ⟨s.data.map lowerChar⟩

/-- Drop a single trailing slash from an S3 URI, when present. -/
def stripSlash (s : String) : String :=
  if s.data.getLast? = some '/' then ⟨s.data.dropLast⟩ else s

/-- Boolean prefix test on character lists. -/
def isPfxChars : List Char → List Char → Bool
  | [], _ => true
  | _ :: _, [] => false
  | a :: as, b :: bs => a == b && isPfxChars as bs

/-- Whether the string p is a prefix of the string s (S3 key-prefix test). -/
def strPfxOf (p s : String) : Bool := isPfxChars p.data s.data

/-- The f-string s3://bucket/rest used throughout the notebooks to build S3
URIs from the session bucket. -/
def fS3 (bucket rest : String) : String := "s3://" ++ bucket ++ "/" ++ rest

/-- The shared S3 key root of every notebook (the Python variable holding the
project S3 name root, set to the same literal in all five notebooks). -/
def pfx : String := "cv-sagemaker-immersionday"

/-- A scalar of a Python hyperparameter dictionary: an integer, an exact
decimal constant, or a string. -/
inductive JVal where
  | int (n : Int)
  | dec (q : ℚ)
  | str (s : String)
deriving DecidableEq

/-- A string-valued SDK keyword argument: either a literal or a reference to a
named pipeline parameter. -/
inductive StrVal where
  | lit (s : String)
  | ref (p : String)
deriving DecidableEq

/-- An integer-valued SDK keyword argument: either a literal or a reference to
a named pipeline parameter. -/
inductive IntVal where
  | lit (n : Int)
  | ref (p : String)
deriving DecidableEq

/-- An S3 data source as written in the notebooks: a concrete URI, a pipeline
parameter, the S3Uri output property of a named processing step, or the
S3ModelArtifacts property of a named training step. -/
inductive S3Ref where
  | uri (s : String)
  | paramRef (p : String)
  | stepOut (step out : String)
  | modelArtifacts (step : String)
deriving DecidableEq

/-- The step names referenced by an S3 source through step properties. -/
def refs_of : S3Ref → List String
  | .uri _ => []
  | .paramRef _ => []
  | .stepOut s _ => [s]
  | .modelArtifacts s => [s]

/-- The concrete URI of an S3 source, when it is one. -/
def uriOf : S3Ref → Option String
  | .uri s => some s
  | _ => none

/-- A CacheConfig object of the pipeline SDK. -/
structure CacheCfg where
  enable_caching : Bool
  expire_after : String
deriving DecidableEq

/-- A ProcessingInput: S3 source plus container destination path. -/
structure PInput where
  source : S3Ref
  destination : String
deriving DecidableEq

/-- A ProcessingOutput: optional channel name, container source path, and
optional S3 destination. -/
structure POutput where
  output_name : Option String
  source : String
  destination : Option String
deriving DecidableEq

/-- A PropertyFile object attached to a pipeline processing step. -/
structure PropertyFileRec where
  name : String
  output_name : String
  path : String
deriving DecidableEq

/-- The arguments of a processor.run call or of a ProcessingStep: script,
job arguments, inputs, outputs, optional cache configuration and property
files (the last two are only ever passed in the pipeline notebook). -/
structure ProcRun where
  code : String
  job_arguments : List StrVal
  inputs : List PInput
  outputs : List POutput
  cache : Option CacheCfg
  property_files : List PropertyFileRec
deriving DecidableEq

/-- The constructor arguments of an SKLearnProcessor. -/
structure SKLearnProcessorCfg where
  base_job_name : String
  framework_version : String
  instance_type : StrVal
  instance_count : IntVal
deriving DecidableEq

/-- The constructor arguments of a ScriptProcessor. -/
structure ScriptProcessorCfg where
  base_job_name : String
  command : List String
  image_uri : String
  instance_count : IntVal
  instance_type : StrVal
deriving DecidableEq

/-- The constructor arguments of a TensorFlow estimator.  Keyword arguments a
cell does not pass are recorded as none (for the spot options, the output
path and the distribution argument) or as the empty list (tags). -/
structure EstimatorCfg where
  entry_point : String
  source_dir : String
  output_path : Option String
  instance_type : String
  instance_count : Nat
  ps_enabled : Option Bool
  hyperparameters : List (String × JVal)
  metric_definitions : List (String × String)
  use_spot_instances : Option Bool
  max_run : Option Nat
  max_wait : Option Nat
  checkpoint_s3_uri : Option String
  framework_version : String
  py_version : String
  base_job_name : String
  script_mode : Bool
  tags : List (String × String)
deriving DecidableEq

/-- A TrainingInput: S3 data source plus distribution mode. -/
structure TrainingInputCfg where
  s3_data : S3Ref
  distribution : String
deriving DecidableEq

/-- A hyperparameter search range of the tuner: a continuous interval or a
categorical value set. -/
inductive HPRange where
  | continuous (lo hi : ℚ)
  | categorical (vals : List ℚ)
deriving DecidableEq

/-- The constructor arguments of a HyperparameterTuner. -/
structure TunerCfg where
  objective_metric_name : String
  hyperparameter_ranges : List (String × HPRange)
  metric_definitions : List (String × String)
  objective_type : String
  max_jobs : Nat
  max_parallel_jobs : Nat
  base_tuning_job_name : String
deriving DecidableEq

/-- The constructor arguments of a TensorFlowModel. -/
structure TFModelCfg where
  model_data : String
  framework_version : String
deriving DecidableEq

/-- A ServerlessInferenceConfig. -/
structure ServerlessCfg where
  memory_size_in_mb : Nat
  max_concurrency : Nat
deriving DecidableEq

/-- One model.deploy call: the model plus the keyword arguments the cell
passes (absent keywords are none). -/
structure DeployCall where
  model : TFModelCfg
  serverless_inference_config : Option ServerlessCfg
  initial_instance_count : Option Nat
  instance_type : Option String
deriving DecidableEq

/-- The default value of a pipeline parameter. -/
inductive ParamDefault where
  | int (n : Int)
  | str (s : String)
deriving DecidableEq

/-- A ParameterInteger or ParameterString of the pipeline. -/
structure PipelineParam where
  name : String
  default_value : ParamDefault
deriving DecidableEq

/-- The name of the evaluation container pushed to ECR (same literal in the
evaluation and pipeline notebooks). -/
def container_name : String := "sagemaker-tf-container"

/-- The tag of the evaluation container. -/
def container_version : String := "2.0"

/-- The format call building the ECR image URI from the account and region of
the SageMaker session. -/
def ecr_image_uri (account region : String) : String :=
  account ++ ".dkr.ecr." ++ region ++ ".amazonaws.com/" ++ container_name ++ ":" ++ container_version

namespace NB01

/-- s3_raw_data of the preprocessing notebook. -/
def s3_raw_data (bucket : String) : String := fS3 bucket (pfx ++ "/full/data")

/-- output_pfx models the output key root variable of the preprocessing
notebook (the project root followed by /outputs). -/
def output_pfx : String := pfx ++ "/outputs"

/-- output_s3_uri of the preprocessing notebook. -/
def output_s3_uri (bucket : String) : String := fS3 bucket output_pfx

/-- class_selection of the preprocessing notebook. -/
def class_selection : String := "13, 17, 35, 36, 47, 68, 73, 87"

/-- The classes file argument of the preprocessing notebook (Python variable
input-data). -/
def input_annot : String := "classes.txt"

def processing_instance_type : String := "ml.m5.xlarge"

def processing_instance_count : Int := 1

/-- The SKLearnProcessor of the preprocessing notebook. -/
def sklearn_processor : SKLearnProcessorCfg :=
  { base_job_name := pfx ++ "-preprocess"
  , framework_version := "0.20.0"
  , instance_type := .lit processing_instance_type
  , instance_count := .lit processing_instance_count }

/-- The sklearn_processor.run call of the preprocessing notebook. -/
def run_call (bucket : String) : ProcRun :=
  { code := "preprocessing.py"
  , job_arguments := [.lit "--classes", .lit class_selection, .lit "--input-data", .lit input_annot]
  , inputs := [⟨.uri (s3_raw_data bucket), "/opt/ml/processing/input"⟩]
  , outputs :=
      [ ⟨none, "/opt/ml/processing/output/train", some (output_s3_uri bucket ++ "/train")⟩
      , ⟨none, "/opt/ml/processing/output/valid", some (output_s3_uri bucket ++ "/valid")⟩
      , ⟨none, "/opt/ml/processing/output/test", some (output_s3_uri bucket ++ "/test")⟩
      , ⟨none, "/opt/ml/processing/output/manifest", some (output_s3_uri bucket ++ "/manifest")⟩ ]
  , cache := none
  , property_files := [] }

/-- The destination of the recursive aws s3 cp upload of the raw dataset. -/
def raw_upload_dest (bucket : String) : String := s3_raw_data bucket

/-- Every S3 location the preprocessing notebook writes: the raw-data upload
followed by the four processing output destinations. -/
def writes (bucket : String) : List String :=
  raw_upload_dest bucket :: (run_call bucket).outputs.filterMap (fun p => p.destination)

end NB01

namespace NB02

/-- processed_data_s3_uri of the training notebook. -/
def processed_data_s3_uri (bucket : String) : String := fS3 bucket (pfx ++ "/outputs")

/-- model_output_path of the training notebook. -/
def model_output_path (bucket : String) : String := fS3 bucket (pfx ++ "/outputs/model")

def metric_definitions : List (String × String) :=
  [ ("loss", "loss: ([0-9\\.]+)")
  , ("acc", "accuracy: ([0-9\\.]+)")
  , ("val_loss", "val_loss: ([0-9\\.]+)")
  , ("val_acc", "val_accuracy: ([0-9\\.]+)") ]

def TF_FRAMEWORK_VERSION : String := "2.4.1"

def DISTRIBUTION_MODE : String := "FullyReplicated"

def training_instance_type : String := "ml.c5.4xlarge"

def training_instance_count : Nat := 1

def shared_hyperparameters : List (String × JVal) :=
  [("initial_epochs", .int 5), ("fine_tuning_epochs", .int 20), ("data_dir", .str "/opt/ml/input/data")]

/-- The TensorFlow estimator of the training notebook (it passes neither the
spot options nor an output path nor a distribution nor tags). -/
def estimator : EstimatorCfg :=
  { entry_point := "train-mobilenet.py"
  , source_dir := "code"
  , output_path := none
  , instance_type := training_instance_type
  , instance_count := training_instance_count
  , ps_enabled := none
  , hyperparameters := shared_hyperparameters
  , metric_definitions := metric_definitions
  , use_spot_instances := none
  , max_run := none
  , max_wait := none
  , checkpoint_s3_uri := none
  , framework_version := TF_FRAMEWORK_VERSION
  , py_version := "py37"
  , base_job_name := pfx
  , script_mode := true
  , tags := [] }

def hyperparameter_ranges : List (String × HPRange) :=
  [("dropout", .continuous 0.5 0.8), ("batch-size", .categorical [8, 16, 32, 64, 128, 256])]

def objective_metric_name : String := "val_acc"

def train_in (bucket : String) : TrainingInputCfg :=
  ⟨.uri (processed_data_s3_uri bucket ++ "/train"), DISTRIBUTION_MODE⟩

def val_in (bucket : String) : TrainingInputCfg :=
  ⟨.uri (processed_data_s3_uri bucket ++ "/valid"), DISTRIBUTION_MODE⟩

/-- The channel dictionary passed to tuner.fit. -/
def fit_inputs (bucket : String) : List (String × TrainingInputCfg) :=
  [("train", train_in bucket), ("validation", val_in bucket)]

/-- The HyperparameterTuner of the training notebook. -/
def tuner : TunerCfg :=
  { objective_metric_name := objective_metric_name
  , hyperparameter_ranges := hyperparameter_ranges
  , metric_definitions := metric_definitions
  , objective_type := "Maximize"
  , max_jobs := 2
  , max_parallel_jobs := 2
  , base_tuning_job_name := "cv-hpo" }

/-- The destination of the aws s3 cp of the best tuning model artifact. -/
def best_model_copy_dest (bucket : String) : String :=
  model_output_path bucket ++ "/model.tar.gz"

/-- Every S3 location the training notebook reads as a training channel. -/
def reads (bucket : String) : List String :=
  (fit_inputs bucket).filterMap (fun p => uriOf p.2.s3_data)

/-- Every S3 location the training notebook writes into the project root. -/
def writes (bucket : String) : List String := [best_model_copy_dest bucket]

end NB02

namespace NB03

/-- s3_images of the evaluation notebook. -/
def s3_images (bucket : String) : String := fS3 bucket (pfx ++ "/outputs/test/")

/-- s3_manifest of the evaluation notebook. -/
def s3_manifest (bucket : String) : String := fS3 bucket (pfx ++ "/outputs/manifest")

/-- s3_model of the evaluation notebook. -/
def s3_model (bucket : String) : String := fS3 bucket (pfx ++ "/outputs/model/")

/-- s3_evaluation_output of the evaluation notebook. -/
def s3_evaluation_output (bucket : String) : String := fS3 bucket (pfx ++ "/outputs/evaluation")

/-- The ScriptProcessor of the evaluation notebook. -/
def script_processor (account region : String) : ScriptProcessorCfg :=
  { base_job_name := pfx
  , command := ["python3"]
  , image_uri := ecr_image_uri account region
  , instance_count := .lit 1
  , instance_type := .lit "ml.m5.xlarge" }

/-- The script_processor.run call of the evaluation notebook. -/
def run_call (bucket : String) : ProcRun :=
  { code := "evaluation.py"
  , job_arguments := [.lit "--model-file", .lit "model.tar.gz"]
  , inputs :=
      [ ⟨.uri (s3_images bucket), "/opt/ml/processing/input/test"⟩
      , ⟨.uri (s3_manifest bucket), "/opt/ml/processing/input/manifest"⟩
      , ⟨.uri (s3_model bucket), "/opt/ml/processing/model"⟩ ]
  , outputs := [⟨some "evaluation", "/opt/ml/processing/evaluation", some (s3_evaluation_output bucket)⟩]
  , cache := none
  , property_files := [] }

/-- Every S3 location the evaluation notebook reads as a processing input. -/
def reads (bucket : String) : List String :=
  (run_call bucket).inputs.filterMap (fun i => uriOf i.source)

/-- Every S3 location the evaluation notebook writes as a processing output. -/
def writes (bucket : String) : List String :=
  (run_call bucket).outputs.filterMap (fun p => p.destination)

end NB03

namespace NB05

def TF_FRAMEWORK_VERSION : String := "2.4.1"

def ENDPOINT_INSTANCE_TYPE : String := "ml.c5.4xlarge"

/-- bird_model_path of the deployment notebook. -/
def bird_model_path (bucket : String) : String :=
  fS3 bucket (pfx ++ "/outputs/model/model.tar.gz")

/-- The TensorFlowModel built (twice, with identical arguments) in the
deployment notebook. -/
def model_cfg (bucket : String) : TFModelCfg :=
  ⟨bird_model_path bucket, TF_FRAMEWORK_VERSION⟩

/-- serverless_inf_config of the deployment notebook. -/
def serverless_inf_config : ServerlessCfg := ⟨4096, 5⟩

/-- Option 1: the serverless model.deploy call. -/
def serverless_deploy (bucket : String) : DeployCall :=
  ⟨model_cfg bucket, some serverless_inf_config, none, none⟩

/-- Option 2: the real-time model.deploy call. -/
def realtime_deploy (bucket : String) : DeployCall :=
  ⟨model_cfg bucket, none, some 1, some ENDPOINT_INSTANCE_TYPE⟩

/-- The two alternative deployments the notebook offers, in order. -/
def deployment_options (bucket : String) : List DeployCall :=
  [serverless_deploy bucket, realtime_deploy bucket]

/-- classes_file read by the inference cells of the deployment notebook. -/
def classes_file (bucket : String) : String :=
  fS3 bucket (pfx ++ "/full/data/classes.txt")

/-- The S3 key root from which the inference cells sample test images, given
to cv_utils as a bucket plus key root and rendered here as a URI. -/
def sample_images_root (bucket : String) : String :=
  fS3 bucket (pfx ++ "/outputs/test")

/-- Every S3 location the deployment notebook reads: the model artifact for
deployment, then the classes file and the test-image root for inference. -/
def reads (bucket : String) : List String :=
  [bird_model_path bucket, classes_file bucket, sample_images_root bucket]

end NB05

namespace Pipe

/-- s3_raw_data of the pipeline notebook. -/
def s3_raw_data (bucket : String) : String := fS3 bucket (pfx ++ "/full/data")

def model_package_group_name : String := pfx ++ "-model-group"

def pipeline_name : String := pfx ++ "-pipeline"

/-- The ParameterInteger ProcessingInstanceCount. -/
def processing_instance_count : PipelineParam := ⟨"ProcessingInstanceCount", .int 1⟩

/-- The ParameterString InputDataUrl. -/
def input_data (bucket : String) : PipelineParam := ⟨"InputDataUrl", .str (s3_raw_data bucket)⟩

/-- The ParameterString AnnotationFileName. -/
def input_annot : PipelineParam := ⟨"AnnotationFileName", .str "classes.txt"⟩

/-- The ParameterString ClassSelection. -/
def class_selection : PipelineParam := ⟨"ClassSelection", .str "13, 17, 35, 36, 47, 68, 73, 87"⟩

def processing_instance_type : String := "ml.m5.xlarge"

def training_instance_count : Nat := 1

def training_instance_type : String := "ml.c5.4xlarge"

/-- cache_config of the pipeline notebook, shared by every cacheable step. -/
def cache_config : CacheCfg := ⟨true, "30d"⟩

/-- The SKLearnProcessor of the pipeline preprocessing step; its instance
count is the ProcessingInstanceCount pipeline parameter. -/
def sklearn_processor : SKLearnProcessorCfg :=
  { base_job_name := pfx ++ "-preprocess"
  , framework_version := "0.20.0"
  , instance_type := .lit processing_instance_type
  , instance_count := .ref "ProcessingInstanceCount" }

/-- output_s3_uri of the pipeline notebook, for the uuid u drawn in the run. -/
def output_s3_uri (bucket u : String) : String :=
  fS3 bucket (pfx ++ "/outputs/pipelines/" ++ u)

/-- A ProcessingStep of the pipeline: a name plus the run arguments. -/
structure ProcessingStepRec where
  name : String
  run : ProcRun
deriving DecidableEq

/-- step_process of the pipeline notebook, over the run output root o. -/
def step_process (o : String) : ProcessingStepRec :=
  { name := "BirdClassificationPreProcess"
  , run :=
    { code := "preprocess.py"
    , job_arguments := [.lit "--classes", .ref "ClassSelection", .lit "--input-data", .ref "AnnotationFileName"]
    , inputs := [⟨.paramRef "InputDataUrl", "/opt/ml/processing/input"⟩]
    , outputs :=
        [ ⟨some "train_data", "/opt/ml/processing/output/train", some (o ++ "/train")⟩
        , ⟨some "val_data", "/opt/ml/processing/output/validation", some (o ++ "/validation")⟩
        , ⟨some "test_data", "/opt/ml/processing/output/test", some (o ++ "/test")⟩
        , ⟨some "manifest", "/opt/ml/processing/output/manifest", some (o ++ "/manifest")⟩ ]
    , cache := some cache_config
    , property_files := [] } }

def TF_FRAMEWORK_VERSION : String := "2.4.1"

def hyperparameters : List (String × JVal) :=
  [ ("initial_epochs", .int 5)
  , ("batch_size", .int 8)
  , ("fine_tuning_epochs", .int 20)
  , ("dropout", .dec 0.4)
  , ("data_dir", .str "/opt/ml/input/data") ]

def metric_definitions : List (String × String) :=
  [ ("loss", "loss: ([0-9\\.]+)")
  , ("acc", "accuracy: ([0-9\\.]+)")
  , ("val_loss", "val_loss: ([0-9\\.]+)")
  , ("val_acc", "val_accuracy: ([0-9\\.]+)") ]

/-- The parameter-server flag of the distribution dictionary, chosen by the
instance-count test of the notebook. -/
def distribution : Option Bool :=
  if training_instance_count > 1 then some true else some false

/-- The distribution mode, chosen by the same instance-count test. -/
def DISTRIBUTION_MODE : String :=
  if training_instance_count > 1 then "ShardedByS3Key" else "FullyReplicated"

def train_in : TrainingInputCfg :=
  ⟨.stepOut "BirdClassificationPreProcess" "train_data", DISTRIBUTION_MODE⟩

def test_in : TrainingInputCfg :=
  ⟨.stepOut "BirdClassificationPreProcess" "test_data", DISTRIBUTION_MODE⟩

def val_in : TrainingInputCfg :=
  ⟨.stepOut "BirdClassificationPreProcess" "val_data", DISTRIBUTION_MODE⟩

/-- The channel dictionary shared by both training steps. -/
def training_inputs : List (String × TrainingInputCfg) :=
  [("train", train_in), ("test", test_in), ("validation", val_in)]

/-- The two training types iterated over by the pipeline notebook. -/
def training_options : List String := ["Spot", "OnDemand"]

/-- model_path of the training loop. -/
def model_path (o : String) : String := o ++ "/models"

/-- The estimator built in the training loop for training type t: the spot
branch when t lowercases to spot, the on-demand branch otherwise. -/
def estimator_for (o t : String) : EstimatorCfg :=
  if lowerStr t = "spot" then
    { entry_point := "train-mobilenet.py"
    , source_dir := "code"
    , output_path := some (model_path o)
    , instance_type := training_instance_type
    , instance_count := training_instance_count
    , ps_enabled := distribution
    , hyperparameters := hyperparameters
    , metric_definitions := metric_definitions
    , use_spot_instances := some true
    , max_run := some (60 * 60 * 10)
    , max_wait := some (60 * 60 * 12)
    , checkpoint_s3_uri := some (o ++ "/outputcheckpoints")
    , framework_version := TF_FRAMEWORK_VERSION
    , py_version := "py37"
    , base_job_name := pfx
    , script_mode := true
    , tags := [("TrainingType", t)] }
  else
    { entry_point := "train-mobilenet.py"
    , source_dir := "code"
    , output_path := some (model_path o)
    , instance_type := training_instance_type
    , instance_count := training_instance_count
    , ps_enabled := distribution
    , hyperparameters := hyperparameters
    , metric_definitions := metric_definitions
    , use_spot_instances := none
    , max_run := none
    , max_wait := none
    , checkpoint_s3_uri := none
    , framework_version := TF_FRAMEWORK_VERSION
    , py_version := "py37"
    , base_job_name := pfx
    , script_mode := true
    , tags := [("TrainingType", t)] }

/-- A TrainingStep of the pipeline. -/
structure TrainingStepRec where
  name : String
  estimator : EstimatorCfg
  inputs : List (String × TrainingInputCfg)
  cache : Option CacheCfg
deriving DecidableEq

/-- step_train of the training loop for training type t. -/
def step_train (o t : String) : TrainingStepRec :=
  ⟨"BirdClassification" ++ t ++ "Train", estimator_for o t, training_inputs, some cache_config⟩

/-- models of the pipeline notebook: the S3ModelArtifacts property of the
training step of type t. -/
def model_of (t : String) : S3Ref :=
  .modelArtifacts ("BirdClassification" ++ t ++ "Train")

/-- The ScriptProcessor built in the evaluation loop. -/
def eval_processor (account region : String) : ScriptProcessorCfg :=
  { base_job_name := pfx ++ "-evaluation"
  , command := ["python3"]
  , image_uri := ecr_image_uri account region
  , instance_count := .ref "ProcessingInstanceCount"
  , instance_type := .lit processing_instance_type }

/-- evaluation_report of the evaluation loop for training type t. -/
def evaluation_report (t : String) : PropertyFileRec :=
  ⟨"Evaluation" ++ t ++ "Report", "evaluation", "evaluation.json"⟩

/-- step_eval of the evaluation loop for training type t. -/
def step_eval (t : String) : ProcessingStepRec :=
  { name := "BirdClassification" ++ t ++ "Eval"
  , run :=
    { code := "evaluation.py"
    , job_arguments := []
    , inputs :=
        [ ⟨.stepOut "BirdClassificationPreProcess" "test_data", "/opt/ml/processing/input/test"⟩
        , ⟨.stepOut "BirdClassificationPreProcess" "manifest", "/opt/ml/processing/input/manifest"⟩
        , ⟨model_of t, "/opt/ml/processing/model"⟩ ]
    , outputs := [⟨some "evaluation", "/opt/ml/processing/evaluation", none⟩]
    , cache := some cache_config
    , property_files := [evaluation_report t] } }

/-- A RegisterModel step of the registration loop; its metrics source is the
evaluation.json file of the first output of the named evaluation step. -/
structure RegisterModelRec where
  name : String
  model_data : S3Ref
  content_types : List String
  response_types : List String
  inference_instances : List String
  transform_instances : List String
  model_package_group_name : String
  metrics_source_step : String
  metrics_content_type : String
deriving DecidableEq

/-- step_register of the registration loop for training type t. -/
def step_register (t : String) : RegisterModelRec :=
  { name := "Register" ++ t ++ "Model"
  , model_data := model_of t
  , content_types := ["application/x-image"]
  , response_types := ["application/json"]
  , inference_instances := ["ml.t2.medium", "ml.m5.large"]
  , transform_instances := ["ml.m5.large"]
  , model_package_group_name := model_package_group_name
  , metrics_source_step := "BirdClassification" ++ t ++ "Eval"
  , metrics_content_type := "application/json" }

/-- A JsonGet expression: step name, property file and JSON path. -/
structure JsonGetRec where
  step_name : String
  property_file : PropertyFileRec
  json_path : String
deriving DecidableEq

/-- A ConditionGreaterThanOrEqualTo whose left side is a JsonGet. -/
structure CondGte where
  left : JsonGetRec
  right : ℚ
deriving DecidableEq

/-- A ConditionStep.  The SDK constructor of ConditionStep accepts no cache
configuration at all; that absence is recorded as a cache field fixed to
none. -/
structure ConditionStepRec where
  name : String
  conditions : List CondGte
  if_steps : List RegisterModelRec
  else_steps : List RegisterModelRec
  cache : Option CacheCfg
deriving DecidableEq

/-- cond_gte of the condition loop for training type t. -/
def cond_gte (t : String) : CondGte :=
  ⟨⟨"BirdClassification" ++ t ++ "Eval", evaluation_report t,
    "multiclass_classification_metrics.accuracy.value"⟩, 0.7⟩

/-- step_cond of the condition loop for training type t. -/
def step_cond (t : String) : ConditionStepRec :=
  ⟨"BirdClassification" ++ t ++ "Condition", [cond_gte t], [step_register t], [], none⟩

/-- Whether one condition holds in an environment giving each JsonGet read a
rational value: greater-than-or-equal of the read value against the right
constant. -/
def cond_satisfied (c : CondGte) (env : JsonGetRec → ℚ) : Bool :=
  decide (env c.left ≥ c.right)

/-- The branch a condition step executes: the if steps when every condition
holds, the else steps otherwise. -/
def executed_branch (s : ConditionStepRec) (env : JsonGetRec → ℚ) : List RegisterModelRec :=
  if s.conditions.all (fun c => cond_satisfied c env) then s.if_steps else s.else_steps

/-- A top-level step of the pipeline step list. -/
inductive PipeStep where
  | procStep (r : ProcessingStepRec)
  | trainStep (r : TrainingStepRec)
  | condStep (r : ConditionStepRec)
deriving DecidableEq

/-- The step list passed to the Pipeline constructor: the preprocessing step,
then the training, evaluation and condition steps in training-type order. -/
def pipeline_steps (o : String) : List PipeStep :=
  [.procStep (step_process o)]
    ++ training_options.map (fun t => .trainStep (step_train o t))
    ++ training_options.map (fun t => .procStep (step_eval t))
    ++ training_options.map (fun t => .condStep (step_cond t))

/-- The name of a top-level pipeline step. -/
def step_name_of : PipeStep → String
  | .procStep r => r.name
  | .trainStep r => r.name
  | .condStep r => r.name

/-- The names of the steps whose properties the declared inputs of a step
reference; execution order must place each of them before the step. -/
def deps_of : PipeStep → List String
  | .procStep r =>
      (r.run.inputs.map (fun i => refs_of i.source)).flatten
  | .trainStep r =>
      (r.inputs.map (fun p => refs_of p.2.s3_data)).flatten
  | .condStep r => r.conditions.map (fun c => c.left.step_name)

/-- The parameter list passed to the Pipeline constructor. -/
def pipeline_params (bucket : String) : List PipelineParam :=
  [processing_instance_count, input_data bucket, input_annot, class_selection]

/-- The Pipeline object. -/
structure PipelineRec where
  name : String
  parameters : List PipelineParam
  steps : List PipeStep
deriving DecidableEq

/-- pipeline of the pipeline notebook. -/
def pipeline (bucket o : String) : PipelineRec :=
  ⟨pipeline_name, pipeline_params bucket, pipeline_steps o⟩

/-- The default value the pipeline declares for a parameter name. -/
def param_default (bucket n : String) : Option ParamDefault :=
  ((pipeline_params bucket).find? (fun p => p.name == n)).map (fun p => p.default_value)

/-- Resolve a string-valued setting under a per-execution parameter override:
a literal is returned unchanged, a parameter reference takes the override
when one is supplied and the declared default otherwise. -/
def resolve_str (bucket : String) (ov : String → Option String) : StrVal → Option String
  | .lit s => some s
  | .ref p =>
      match ov p with
      | some v => some v
      | none =>
          match param_default bucket p with
          | some (.str s) => some s
          | _ => none

/-- A topological position function used to witness the dependency-order
consequences of the declared inputs. -/
def c2_pos (n : String) : Nat :=
  List.indexOf n
    [ "BirdClassificationPreProcess"
    , "BirdClassificationSpotTrain"
    , "BirdClassificationOnDemandTrain"
    , "BirdClassificationSpotEval"
    , "BirdClassificationOnDemandEval"
    , "BirdClassificationSpotCondition"
    , "BirdClassificationOnDemandCondition" ]

end Pipe

/-- The four channel names the specification ascribes to every preprocessing
job, and the shape it claims: the container source paths and the S3
destination suffixes of the four declared outputs spell those names. -/
def channel_names : List String := ["train", "validation", "test", "manifest"]

/-- The claimed output shape of a preprocessing job over an S3 output base. -/
def c3_channel_shape (outs : List POutput) (base : String) : Prop :=
  outs.map (fun p => p.source) = channel_names.map (fun c => "/opt/ml/processing/output/" ++ c)
  ∧ outs.map (fun p => p.destination) = channel_names.map (fun c => some (base ++ ("/" ++ c)))

/-- Whether an S3 location that is read is accounted for by a list of written
locations: equal to a write after dropping a trailing slash, the directory
holding a written object, or an object below a recursively written root. -/
def covered (r : String) (ws : List String) : Bool :=
  ws.any (fun w =>
    stripSlash r == w
    || strPfxOf (stripSlash r ++ "/") w
    || strPfxOf (w ++ "/") (stripSlash r))

/-- The cross-notebook S3 data-flow claim exactly as the specification states
it: every location a later notebook reads equals a location an earlier
notebook wrote, and every such read lies under the outputs root. -/
def c4_claim (bucket : String) : Prop :=
  (∀ r ∈ NB02.reads bucket, r ∈ NB01.writes bucket)
  ∧ (∀ r ∈ NB03.reads bucket, r ∈ NB01.writes bucket ++ NB02.writes bucket)
  ∧ (∀ r ∈ NB05.reads bucket, r ∈ NB01.writes bucket ++ NB02.writes bucket ++ NB03.writes bucket)
  ∧ (∀ r ∈ NB02.reads bucket ++ NB03.reads bucket ++ NB05.reads bucket,
      strPfxOf (fS3 bucket (pfx ++ "/outputs")) r = true)

/-- The S3 keys (bucket-relative) of every location the preprocessing
notebook writes. -/
def nb01_write_keys : List String :=
  [ "cv-sagemaker-immersionday/full/data"
  , "cv-sagemaker-immersionday/outputs/train"
  , "cv-sagemaker-immersionday/outputs/valid"
  , "cv-sagemaker-immersionday/outputs/test"
  , "cv-sagemaker-immersionday/outputs/manifest" ]

/-- The S3 keys of the training-notebook reads. -/
def nb02_read_keys : List String :=
  ["cv-sagemaker-immersionday/outputs/train", "cv-sagemaker-immersionday/outputs/valid"]

/-- The S3 keys of the training-notebook writes. -/
def nb02_write_keys : List String :=
  ["cv-sagemaker-immersionday/outputs/model/model.tar.gz"]

/-- The S3 keys of the evaluation-notebook reads. -/
def nb03_read_keys : List String :=
  [ "cv-sagemaker-immersionday/outputs/test/"
  , "cv-sagemaker-immersionday/outputs/manifest"
  , "cv-sagemaker-immersionday/outputs/model/" ]

/-- The S3 keys of the evaluation-notebook writes. -/
def nb03_write_keys : List String :=
  ["cv-sagemaker-immersionday/outputs/evaluation"]

/-- The S3 keys of the deployment-notebook reads. -/
def nb05_read_keys : List String :=
  [ "cv-sagemaker-immersionday/outputs/model/model.tar.gz"
  , "cv-sagemaker-immersionday/full/data/classes.txt"
  , "cv-sagemaker-immersionday/outputs/test" ]

/-- Appending to an f-string S3 URI extends its key part. -/
theorem fS3_append (b k s : String) : fS3 b k ++ s = fS3 b (k ++ s) := by
  apply String.ext
  simp [fS3]

/-- Claim C1: for each training type, the registration step for that type is
the single if step of the condition step for that type; the condition step
has a single condition, comparing the JsonGet read at path
multiclass_classification_metrics.accuracy.value of the evaluation report of
that type against 0.7 with greater-than-or-equal; the else branch is empty;
no register step is a top-level pipeline step and neither condition step
carries the register step of the other type; hence under the branch
semantics the model of a type is registered precisely when its accuracy
value is at least 0.7. -/
theorem c1_conditional_registration (o : String) (env : Pipe.JsonGetRec → ℚ) :
    (Pipe.step_cond "Spot").conditions = [Pipe.cond_gte "Spot"]
    ∧ (Pipe.step_cond "OnDemand").conditions = [Pipe.cond_gte "OnDemand"]
    ∧ Pipe.cond_gte "Spot" =
        ⟨⟨"BirdClassificationSpotEval", Pipe.evaluation_report "Spot",
          "multiclass_classification_metrics.accuracy.value"⟩, 0.7⟩
    ∧ Pipe.cond_gte "OnDemand" =
        ⟨⟨"BirdClassificationOnDemandEval", Pipe.evaluation_report "OnDemand",
          "multiclass_classification_metrics.accuracy.value"⟩, 0.7⟩
    ∧ (Pipe.step_cond "Spot").if_steps = [Pipe.step_register "Spot"]
    ∧ (Pipe.step_cond "OnDemand").if_steps = [Pipe.step_register "OnDemand"]
    ∧ (Pipe.step_cond "Spot").else_steps = []
    ∧ (Pipe.step_cond "OnDemand").else_steps = []
    ∧ (Pipe.pipeline_steps o).map Pipe.step_name_of =
        [ "BirdClassificationPreProcess"
        , "BirdClassificationSpotTrain"
        , "BirdClassificationOnDemandTrain"
        , "BirdClassificationSpotEval"
        , "BirdClassificationOnDemandEval"
        , "BirdClassificationSpotCondition"
        , "BirdClassificationOnDemandCondition" ]
    ∧ Pipe.step_register "Spot" ∉ (Pipe.step_cond "OnDemand").if_steps
    ∧ Pipe.step_register "OnDemand" ∉ (Pipe.step_cond "Spot").if_steps
    ∧ (Pipe.step_register "Spot" ∈ Pipe.executed_branch (Pipe.step_cond "Spot") env
        ↔ env (Pipe.cond_gte "Spot").left ≥ 0.7)
    ∧ (Pipe.step_register "OnDemand" ∈ Pipe.executed_branch (Pipe.step_cond "OnDemand") env
        ↔ env (Pipe.cond_gte "OnDemand").left ≥ 0.7) := by
  have key : ∀ t : String,
      (Pipe.step_register t ∈ Pipe.executed_branch (Pipe.step_cond t) env
        ↔ env (Pipe.cond_gte t).left ≥ 0.7) := by
    intro t
    have hsat : Pipe.cond_satisfied (Pipe.cond_gte t) env
        = decide (env (Pipe.cond_gte t).left ≥ 0.7) := rfl
    by_cases h : env (Pipe.cond_gte t).left ≥ (0.7 : ℚ)
    · simp [Pipe.executed_branch, Pipe.step_cond, hsat, h]
    · simp [Pipe.executed_branch, Pipe.step_cond, hsat, h]
  exact ⟨rfl, rfl, rfl, rfl, rfl, rfl, rfl, rfl, rfl, by decide, by decide,
    key "Spot", key "OnDemand"⟩

/-- Claim C5: the pipeline builds one training step per training type; the
Spot estimator enables spot instances with a maximal run time of 36000
seconds, a maximal wait of 43200 seconds (at least the run time) and a
checkpoint URI, the OnDemand estimator passes none of those options, and
the two estimators agree on every other constructor argument: entry point,
source directory, output path, instance type and count, distribution,
hyperparameters, metric definitions, framework and Python versions, base
job name and script mode, differing further only in the training-type tag
value. -/
theorem c5_spot_vs_ondemand (o : String) :
    Pipe.training_options = ["Spot", "OnDemand"]
    ∧ (Pipe.step_train o "Spot").estimator = Pipe.estimator_for o "Spot"
    ∧ (Pipe.step_train o "OnDemand").estimator = Pipe.estimator_for o "OnDemand"
    ∧ (Pipe.estimator_for o "Spot").use_spot_instances = some true
    ∧ (Pipe.estimator_for o "Spot").max_run = some 36000
    ∧ (Pipe.estimator_for o "Spot").max_wait = some 43200
    ∧ (36000 : Nat) ≤ 43200
    ∧ (Pipe.estimator_for o "Spot").checkpoint_s3_uri = some (o ++ "/outputcheckpoints")
    ∧ (Pipe.estimator_for o "OnDemand").use_spot_instances = none
    ∧ (Pipe.estimator_for o "OnDemand").max_run = none
    ∧ (Pipe.estimator_for o "OnDemand").max_wait = none
    ∧ (Pipe.estimator_for o "OnDemand").checkpoint_s3_uri = none
    ∧ (Pipe.estimator_for o "Spot").entry_point = (Pipe.estimator_for o "OnDemand").entry_point
    ∧ (Pipe.estimator_for o "Spot").source_dir = (Pipe.estimator_for o "OnDemand").source_dir
    ∧ (Pipe.estimator_for o "Spot").output_path = (Pipe.estimator_for o "OnDemand").output_path
    ∧ (Pipe.estimator_for o "Spot").instance_type = (Pipe.estimator_for o "OnDemand").instance_type
    ∧ (Pipe.estimator_for o "Spot").instance_count = (Pipe.estimator_for o "OnDemand").instance_count
    ∧ (Pipe.estimator_for o "Spot").ps_enabled = (Pipe.estimator_for o "OnDemand").ps_enabled
    ∧ (Pipe.estimator_for o "Spot").hyperparameters = (Pipe.estimator_for o "OnDemand").hyperparameters
    ∧ (Pipe.estimator_for o "Spot").metric_definitions = (Pipe.estimator_for o "OnDemand").metric_definitions
    ∧ (Pipe.estimator_for o "Spot").framework_version = (Pipe.estimator_for o "OnDemand").framework_version
    ∧ (Pipe.estimator_for o "Spot").py_version = (Pipe.estimator_for o "OnDemand").py_version
    ∧ (Pipe.estimator_for o "Spot").base_job_name = (Pipe.estimator_for o "OnDemand").base_job_name
    ∧ (Pipe.estimator_for o "Spot").script_mode = (Pipe.estimator_for o "OnDemand").script_mode
    ∧ (Pipe.estimator_for o "Spot").tags = [("TrainingType", "Spot")]
    ∧ (Pipe.estimator_for o "OnDemand").tags = [("TrainingType", "OnDemand")] :=
  ⟨rfl, rfl, rfl, rfl, rfl, rfl, by decide, rfl, rfl, rfl, rfl, rfl, rfl, rfl,
   rfl, rfl, rfl, rfl, rfl, rfl, rfl, rfl, rfl, rfl, rfl, rfl⟩

/-- Claim C7: the preprocessing step, both training steps and both
evaluation steps of the pipeline all carry the one shared cache
configuration with caching enabled and expiry 30d, while the condition
steps carry no cache configuration. -/
theorem c7_cache_configuration (o : String) :
    Pipe.cache_config.enable_caching = true
    ∧ Pipe.cache_config.expire_after = "30d"
    ∧ (Pipe.step_process o).run.cache = some Pipe.cache_config
    ∧ (Pipe.step_train o "Spot").cache = some Pipe.cache_config
    ∧ (Pipe.step_train o "OnDemand").cache = some Pipe.cache_config
    ∧ (Pipe.step_eval "Spot").run.cache = some Pipe.cache_config
    ∧ (Pipe.step_eval "OnDemand").run.cache = some Pipe.cache_config
    ∧ (Pipe.step_cond "Spot").cache = none
    ∧ (Pipe.step_cond "OnDemand").cache = none :=
  ⟨rfl, rfl, rfl, rfl, rfl, rfl, rfl, rfl, rfl⟩

/-- Claim C2: both training steps draw their train, test and validation
channels from the output properties of the preprocessing step; each
evaluation step draws its test and manifest inputs from the preprocessing
outputs and its model input from the S3ModelArtifacts property of the
training step of its type; each condition step reads the property file of
the evaluation step of its type; consequently every position assignment
that respects the declared dependencies places preprocessing before both
training steps, each training step before its evaluation step, and each
evaluation step before its condition step. -/
theorem c2_dependency_chain (o : String) (pos : String → Nat)
    (hresp : ∀ s ∈ Pipe.pipeline_steps o, ∀ d ∈ Pipe.deps_of s,
      pos d < pos (Pipe.step_name_of s)) :
    Pipe.training_inputs =
      [ ("train", ⟨.stepOut "BirdClassificationPreProcess" "train_data", "FullyReplicated"⟩)
      , ("test", ⟨.stepOut "BirdClassificationPreProcess" "test_data", "FullyReplicated"⟩)
      , ("validation", ⟨.stepOut "BirdClassificationPreProcess" "val_data", "FullyReplicated"⟩) ]
    ∧ (Pipe.step_train o "Spot").inputs = Pipe.training_inputs
    ∧ (Pipe.step_train o "OnDemand").inputs = Pipe.training_inputs
    ∧ (Pipe.step_eval "Spot").run.inputs =
      [ ⟨.stepOut "BirdClassificationPreProcess" "test_data", "/opt/ml/processing/input/test"⟩
      , ⟨.stepOut "BirdClassificationPreProcess" "manifest", "/opt/ml/processing/input/manifest"⟩
      , ⟨.modelArtifacts "BirdClassificationSpotTrain", "/opt/ml/processing/model"⟩ ]
    ∧ (Pipe.step_eval "OnDemand").run.inputs =
      [ ⟨.stepOut "BirdClassificationPreProcess" "test_data", "/opt/ml/processing/input/test"⟩
      , ⟨.stepOut "BirdClassificationPreProcess" "manifest", "/opt/ml/processing/input/manifest"⟩
      , ⟨.modelArtifacts "BirdClassificationOnDemandTrain", "/opt/ml/processing/model"⟩ ]
    ∧ (Pipe.step_cond "Spot").conditions.map (fun c => c.left.step_name)
        = ["BirdClassificationSpotEval"]
    ∧ (Pipe.step_cond "OnDemand").conditions.map (fun c => c.left.step_name)
        = ["BirdClassificationOnDemandEval"]
    ∧ (Pipe.step_cond "Spot").conditions.map (fun c => c.left.property_file)
        = [Pipe.evaluation_report "Spot"]
    ∧ (Pipe.step_cond "OnDemand").conditions.map (fun c => c.left.property_file)
        = [Pipe.evaluation_report "OnDemand"]
    ∧ pos "BirdClassificationPreProcess" < pos "BirdClassificationSpotTrain"
    ∧ pos "BirdClassificationPreProcess" < pos "BirdClassificationOnDemandTrain"
    ∧ pos "BirdClassificationSpotTrain" < pos "BirdClassificationSpotEval"
    ∧ pos "BirdClassificationOnDemandTrain" < pos "BirdClassificationOnDemandEval"
    ∧ pos "BirdClassificationSpotEval" < pos "BirdClassificationSpotCondition"
    ∧ pos "BirdClassificationOnDemandEval" < pos "BirdClassificationOnDemandCondition" := by
  refine ⟨rfl, rfl, rfl, rfl, rfl, rfl, rfl, rfl, rfl, ?_, ?_, ?_, ?_, ?_, ?_⟩
  · exact hresp (.trainStep (Pipe.step_train o "Spot"))
      (by simp [Pipe.pipeline_steps, Pipe.training_options]) _
      (by simp [Pipe.deps_of, Pipe.step_train, Pipe.training_inputs, refs_of,
        Pipe.train_in, Pipe.test_in, Pipe.val_in])
  · exact hresp (.trainStep (Pipe.step_train o "OnDemand"))
      (by simp [Pipe.pipeline_steps, Pipe.training_options]) _
      (by simp [Pipe.deps_of, Pipe.step_train, Pipe.training_inputs, refs_of,
        Pipe.train_in, Pipe.test_in, Pipe.val_in])
  · exact hresp (.procStep (Pipe.step_eval "Spot"))
      (by simp [Pipe.pipeline_steps, Pipe.training_options]) _ (by decide)
  · exact hresp (.procStep (Pipe.step_eval "OnDemand"))
      (by simp [Pipe.pipeline_steps, Pipe.training_options]) _ (by decide)
  · exact hresp (.condStep (Pipe.step_cond "Spot"))
      (by simp [Pipe.pipeline_steps, Pipe.training_options]) _ (by decide)
  · exact hresp (.condStep (Pipe.step_cond "OnDemand"))
      (by simp [Pipe.pipeline_steps, Pipe.training_options]) _ (by decide)

/-- Witness for C2: a concrete position assignment respecting the declared
dependencies of the pipeline built with a concrete output root, for which
the chained orderings hold. -/
theorem c2_dependency_chain_witness :
    (∀ s ∈ Pipe.pipeline_steps "s3-root", ∀ d ∈ Pipe.deps_of s,
       Pipe.c2_pos d < Pipe.c2_pos (Pipe.step_name_of s))
    ∧ (Pipe.c2_pos "BirdClassificationPreProcess" < Pipe.c2_pos "BirdClassificationSpotTrain"
       ∧ Pipe.c2_pos "BirdClassificationSpotEval" < Pipe.c2_pos "BirdClassificationSpotCondition") :=
  ⟨by decide, by
    have h := c2_dependency_chain "s3-root" Pipe.c2_pos (by decide)
    exact ⟨h.2.2.2.2.2.2.2.2.2.1, h.2.2.2.2.2.2.2.2.2.2.2.2.2.1⟩⟩

/-- Claim C6: the standalone evaluation run and each pipeline evaluation
step share the same job shape: command python3, script evaluation.py, test
images mounted at /opt/ml/processing/input/test, the manifest at
/opt/ml/processing/input/manifest, the model at /opt/ml/processing/model,
and one output named evaluation sourced from /opt/ml/processing/evaluation;
they differ only in that the standalone run passes the model-file argument
list and an explicit S3 output destination while the pipeline step passes
no job arguments and no destination. -/
theorem c6_eval_job_shapes (b a r t : String) :
    (NB03.script_processor a r).command = (Pipe.eval_processor a r).command
    ∧ (NB03.script_processor a r).command = ["python3"]
    ∧ (NB03.run_call b).code = (Pipe.step_eval t).run.code
    ∧ (NB03.run_call b).code = "evaluation.py"
    ∧ (NB03.run_call b).inputs.map (fun i => i.destination)
        = (Pipe.step_eval t).run.inputs.map (fun i => i.destination)
    ∧ (NB03.run_call b).inputs.map (fun i => i.destination)
        = ["/opt/ml/processing/input/test", "/opt/ml/processing/input/manifest",
           "/opt/ml/processing/model"]
    ∧ (NB03.run_call b).outputs.map (fun p => (p.output_name, p.source))
        = (Pipe.step_eval t).run.outputs.map (fun p => (p.output_name, p.source))
    ∧ (NB03.run_call b).outputs.map (fun p => (p.output_name, p.source))
        = [(some "evaluation", "/opt/ml/processing/evaluation")]
    ∧ (NB03.run_call b).job_arguments = [.lit "--model-file", .lit "model.tar.gz"]
    ∧ (Pipe.step_eval t).run.job_arguments = []
    ∧ (NB03.run_call b).outputs.map (fun p => p.destination)
        = [some (NB03.s3_evaluation_output b)]
    ∧ (Pipe.step_eval t).run.outputs.map (fun p => p.destination) = [none] :=
  ⟨rfl, rfl, rfl, rfl, rfl, rfl, rfl, rfl, rfl, rfl, rfl, rfl⟩

/-- Claim C8: the deployment notebook offers exactly two deployments of the
same TensorFlowModel, whose model data is the model.tar.gz artifact under
the shared outputs/model key and whose framework version is 2.4.1: a
serverless deployment with 4096 MB memory and maximal concurrency 5, and a
real-time deployment with one initial instance of type ml.c5.4xlarge. -/
theorem c8_two_deployments (b : String) :
    NB05.deployment_options b = [NB05.serverless_deploy b, NB05.realtime_deploy b]
    ∧ (NB05.deployment_options b).length = 2
    ∧ (NB05.serverless_deploy b).model = (NB05.realtime_deploy b).model
    ∧ (NB05.serverless_deploy b).model.model_data = NB05.bird_model_path b
    ∧ NB05.bird_model_path b = fS3 b "cv-sagemaker-immersionday/outputs/model/model.tar.gz"
    ∧ (NB05.serverless_deploy b).model.framework_version = "2.4.1"
    ∧ (NB05.serverless_deploy b).serverless_inference_config
        = some ⟨4096, 5⟩
    ∧ (NB05.serverless_deploy b).initial_instance_count = none
    ∧ (NB05.serverless_deploy b).instance_type = none
    ∧ (NB05.realtime_deploy b).serverless_inference_config = none
    ∧ (NB05.realtime_deploy b).initial_instance_count = some 1
    ∧ (NB05.realtime_deploy b).instance_type = some "ml.c5.4xlarge"
    ∧ NB05.ENDPOINT_INSTANCE_TYPE = "ml.c5.4xlarge" :=
  ⟨rfl, rfl, rfl, rfl, rfl, rfl, rfl, rfl, rfl, rfl, rfl, rfl, rfl⟩

/-- Claim C9: the pipeline declares exactly the four runtime parameters
ProcessingInstanceCount (integer, default 1), InputDataUrl (string, default
the raw-data URI under full/data), AnnotationFileName (string, default
classes.txt) and ClassSelection (string, default the eight-class list),
while the processing instance type, the training instance type and the
training instance count are literals that resolve to themselves under every
per-execution parameter override. -/
theorem c9_pipeline_parameters (b o : String) (ov : String → Option String) :
    (Pipe.pipeline b o).parameters = Pipe.pipeline_params b
    ∧ Pipe.pipeline_params b =
        [ ⟨"ProcessingInstanceCount", .int 1⟩
        , ⟨"InputDataUrl", .str (Pipe.s3_raw_data b)⟩
        , ⟨"AnnotationFileName", .str "classes.txt"⟩
        , ⟨"ClassSelection", .str "13, 17, 35, 36, 47, 68, 73, 87"⟩ ]
    ∧ Pipe.s3_raw_data b = fS3 b "cv-sagemaker-immersionday/full/data"
    ∧ (Pipe.pipeline_params b).map (fun p => p.name)
        = ["ProcessingInstanceCount", "InputDataUrl", "AnnotationFileName", "ClassSelection"]
    ∧ Pipe.processing_instance_type = "ml.m5.xlarge"
    ∧ Pipe.training_instance_type = "ml.c5.4xlarge"
    ∧ Pipe.training_instance_count = 1
    ∧ Pipe.sklearn_processor.instance_type = .lit "ml.m5.xlarge"
    ∧ Pipe.resolve_str b ov Pipe.sklearn_processor.instance_type = some "ml.m5.xlarge"
    ∧ Pipe.resolve_str b ov (.lit Pipe.training_instance_type) = some "ml.c5.4xlarge"
    ∧ (Pipe.estimator_for o "Spot").instance_type = "ml.c5.4xlarge"
    ∧ (Pipe.estimator_for o "OnDemand").instance_type = "ml.c5.4xlarge"
    ∧ (Pipe.estimator_for o "Spot").instance_count = 1
    ∧ (Pipe.estimator_for o "OnDemand").instance_count = 1
    ∧ Pipe.sklearn_processor.instance_count = .ref "ProcessingInstanceCount"
    ∧ (Pipe.eval_processor "a" "r").instance_count = .ref "ProcessingInstanceCount" :=
  ⟨rfl, rfl, rfl, rfl, rfl, rfl, rfl, rfl, rfl, rfl, rfl, rfl, rfl, rfl, rfl, rfl⟩

/-- Claim C10: the tuning job of the training notebook maximizes val_acc
over exactly the continuous dropout range from 0.5 to 0.8 and the
categorical batch-size set of the six powers of two from 8 to 256, with at
most two jobs and at most two in parallel, and the notebook copies the best
model artifact to the shared outputs/model/model.tar.gz key, the same
location the deployment notebook later reads. -/
theorem c10_tuning_job (b : String) :
    NB02.tuner.objective_metric_name = "val_acc"
    ∧ NB02.tuner.objective_type = "Maximize"
    ∧ NB02.tuner.hyperparameter_ranges =
        [ ("dropout", .continuous 0.5 0.8)
        , ("batch-size", .categorical [8, 16, 32, 64, 128, 256]) ]
    ∧ NB02.tuner.max_jobs = 2
    ∧ NB02.tuner.max_parallel_jobs = 2
    ∧ NB02.tuner.base_tuning_job_name = "cv-hpo"
    ∧ NB02.best_model_copy_dest b = NB02.model_output_path b ++ "/model.tar.gz"
    ∧ NB02.best_model_copy_dest b = fS3 b "cv-sagemaker-immersionday/outputs/model/model.tar.gz"
    ∧ NB02.best_model_copy_dest b = NB05.bird_model_path b := by
  refine ⟨rfl, rfl, rfl, rfl, rfl, rfl, rfl, ?_, ?_⟩
  · rw [show NB02.best_model_copy_dest b
        = fS3 b (pfx ++ "/outputs/model") ++ "/model.tar.gz" from rfl, fS3_append]
    rfl
  · rw [show NB02.best_model_copy_dest b
        = fS3 b (pfx ++ "/outputs/model") ++ "/model.tar.gz" from rfl, fS3_append]
    rfl

/-- Counterexample to claim C3 at a concrete bucket: the standalone
preprocessing run does not use the channel name validation in its container
source paths and destination suffixes (its second output uses valid). -/
theorem c3_counterexample :
    ¬ c3_channel_shape ((NB01.run_call "mybucket").outputs) (NB01.output_s3_uri "mybucket") := by
  unfold c3_channel_shape
  decide

/-- Claim C3, amended: both preprocessing jobs declare exactly four outputs
covering the train/validation/test/manifest channels; the pipeline step
spells the four channel names train/validation/test/manifest in its
container source paths and destination suffixes, while the standalone run
abbreviates the validation channel to valid, spelling
train/valid/test/manifest. -/
theorem c3_amended_channels (b o : String) :
    c3_channel_shape ((Pipe.step_process o).run.outputs) o
    ∧ (Pipe.step_process o).run.outputs.length = 4
    ∧ (NB01.run_call b).outputs.length = 4
    ∧ (NB01.run_call b).outputs.map (fun p => p.source)
        = ["train", "valid", "test", "manifest"].map
            (fun c => "/opt/ml/processing/output/" ++ c)
    ∧ (NB01.run_call b).outputs.map (fun p => p.destination)
        = ["train", "valid", "test", "manifest"].map
            (fun c => some (NB01.output_s3_uri b ++ ("/" ++ c))) :=
  ⟨⟨rfl, rfl⟩, rfl, rfl, rfl, rfl⟩

/-- Counterexample to claim C4 at a concrete bucket: the evaluation
notebook reads the model directory URI ending in outputs/model/ and the
test directory URI ending in outputs/test/, neither of which any earlier
notebook writes verbatim, and the deployment notebook reads the classes
file under full/data, which does not lie under the outputs root. -/
theorem c4_counterexample : ¬ c4_claim "mybucket" := by
  unfold c4_claim
  decide

/-- Claim C4, amended: every S3 URI of every notebook is the f-string of
the bucket and a fixed key; every location a later notebook reads is
accounted for by a location an earlier notebook wrote, where accounted for
means equal after dropping a trailing slash, the directory holding a
written object, or an object below a recursively written root; the chain
keys lie under the outputs root except the classes file of the deployment
inference cells, which lies under the recursively uploaded full/data root. -/
theorem c4_amended_dataflow (b : String) :
    NB01.writes b = nb01_write_keys.map (fS3 b)
    ∧ NB02.reads b = nb02_read_keys.map (fS3 b)
    ∧ NB02.writes b = nb02_write_keys.map (fS3 b)
    ∧ NB03.reads b = nb03_read_keys.map (fS3 b)
    ∧ NB03.writes b = nb03_write_keys.map (fS3 b)
    ∧ NB05.reads b = nb05_read_keys.map (fS3 b)
    ∧ nb02_read_keys.all (fun r => covered r nb01_write_keys) = true
    ∧ nb03_read_keys.all (fun r => covered r (nb01_write_keys ++ nb02_write_keys)) = true
    ∧ nb05_read_keys.all
        (fun r => covered r (nb01_write_keys ++ nb02_write_keys ++ nb03_write_keys)) = true
    ∧ (nb02_read_keys ++ nb03_read_keys).all
        (fun r => strPfxOf "cv-sagemaker-immersionday/outputs" r) = true
    ∧ nb05_read_keys.all
        (fun r => strPfxOf "cv-sagemaker-immersionday/outputs" r
          || strPfxOf "cv-sagemaker-immersionday/full/data/" r) = true := by
  refine ⟨?_, ?_, ?_, rfl, rfl, rfl, by decide, by decide, by decide, by decide, by decide⟩
  · rw [show NB01.writes b
        = [ fS3 b (pfx ++ "/full/data")
          , fS3 b NB01.output_pfx ++ "/train"
          , fS3 b NB01.output_pfx ++ "/valid"
          , fS3 b NB01.output_pfx ++ "/test"
          , fS3 b NB01.output_pfx ++ "/manifest" ] from rfl]
    simp only [fS3_append]
    rfl
  · rw [show NB02.reads b
        = [ fS3 b (pfx ++ "/outputs") ++ "/train"
          , fS3 b (pfx ++ "/outputs") ++ "/valid" ] from rfl]
    simp only [fS3_append]
    rfl
  · rw [show NB02.writes b
        = [fS3 b (pfx ++ "/outputs/model") ++ "/model.tar.gz"] from rfl]
    simp only [fS3_append]
    rfl
